import Mathlib

/-!
# Verification of the telemetry-monitoring demo service (`app/main.py`)

A shallow embedding of the request handlers of the FastAPI demo service.
Each Python handler becomes a Lean function taking the random samples it
draws (`random.uniform` results, the `random.random()` fault roll, the
measured elapsed time) as explicit rational parameters, together with the
ambient telemetry state, and returning the HTTP outcome (`Except
HTTPException Json`) paired with the updated telemetry state.

The telemetry state records, most recent first:
* increments of the `http_requests_total` Prometheus counter (`requests`),
* observations of the `http_request_duration_seconds` histogram (`latency`),
* calls into the `logging` logger with their severity (`logCalls`),
* sleeps performed, tagged with the primitive used (`sleeps`): the source
  invokes the blocking `time.sleep`, never `asyncio.sleep`.

Log *emission* is separated from log *calls*: `logging.basicConfig` in the
source sets the level to `logging.INFO`, so a call is emitted only when its
severity level is at least the INFO level (Python levels: DEBUG 10, INFO 20,
WARNING 30, ERROR 40).
-/

/-- A single increment of the `http_requests_total` counter with its
`method` / `endpoint` / `status` label values (labels are strings in the
source: `status="500"` etc.). -/
structure ReqInc where
  method : String
  endpoint : String
  status : String
deriving DecidableEq, Repr

/-- A single observation of the `http_request_duration_seconds` histogram. -/
structure LatObs where
  method : String
  endpoint : String
  seconds : ℚ
deriving DecidableEq, Repr

/-- Python `logging` severities used by the service. -/
inductive Severity where
  | DEBUG
  | INFO
  | WARNING
  | ERROR
deriving DecidableEq, Repr

/-- Numeric level of each severity, as in the Python `logging` module. -/
def Severity.level : Severity → Nat
  | .DEBUG => 10
  | .INFO => 20
  | .WARNING => 30
  | .ERROR => 40

/-- A call into the module logger (`logger.debug` / `.info` / `.warning` /
`.error`) with its message. -/
structure LogCall where
  severity : Severity
  message : String
deriving DecidableEq, Repr

/-- Which sleep primitive a delay uses.  `time.sleep` blocks the calling
thread (and hence, inside an `async def` coroutine, the whole event loop);
`asyncio.sleep` yields to the event loop.  The source only ever calls
`time.sleep`. -/
inductive SleepKind where
  | timeSleep
  | asyncioSleep
deriving DecidableEq, Repr

/-- A sleep performed by a handler: the primitive used and the sampled
duration in seconds. -/
structure SleepCall where
  kind : SleepKind
  seconds : ℚ
deriving DecidableEq, Repr

/-- A delay is non-blocking with respect to other in-flight requests only
when it is an `asyncio.sleep` (which suspends the coroutine and returns
control to the event loop).  A `time.sleep` inside an `async def` handler
holds the event loop for its whole duration. -/
def SleepCall.nonBlocking (c : SleepCall) : Bool :=
  c.kind == SleepKind.asyncioSleep

/-- The ambient telemetry state threaded through the handlers.  Every list
records the most recent event first. -/
structure Obs where
  requests : List ReqInc
  latency : List LatObs
  logCalls : List LogCall
  sleeps : List SleepCall
deriving DecidableEq, Repr

/-- `prom_requests.labels(method=m, endpoint=e, status=s).inc()`. -/
def Obs.incReq (st : Obs) (m e s : String) : Obs :=
  { st with requests := ⟨m, e, s⟩ :: st.requests }

/-- `prom_latency.labels(method=m, endpoint=e).observe(v)`. -/
def Obs.observe (st : Obs) (m e : String) (v : ℚ) : Obs :=
  { st with latency := ⟨m, e, v⟩ :: st.latency }

/-- A call into the module logger at severity `sev`. -/
def Obs.log (st : Obs) (sev : Severity) (msg : String) : Obs :=
  { st with logCalls := ⟨sev, msg⟩ :: st.logCalls }

/-- A sleep of `d` seconds through primitive `k`. -/
def Obs.sleep (st : Obs) (k : SleepKind) (d : ℚ) : Obs :=
  { st with sleeps := ⟨k, d⟩ :: st.sleeps }

/-- The telemetry state at process start: nothing recorded yet. -/
def emptyObs : Obs := ⟨[], [], [], []⟩

/-- `logging.basicConfig(level=logging.INFO, ...)` from the source: the
effective logger level. -/
def basicConfigLevel : Nat := Severity.INFO.level

/-- A log call is actually emitted iff its severity level reaches the
configured level (Python `logging` semantics). -/
def LogCall.emitted (c : LogCall) : Bool :=
  basicConfigLevel ≤ c.severity.level

/-- The log lines actually emitted among a list of logger calls. -/
def emittedLogs (calls : List LogCall) : List LogCall :=
  calls.filter LogCall.emitted

/-- A `User` record of the hardcoded dataset: integer id, name, email. -/
structure User where
  id : Int
  name : String
  email : String
deriving DecidableEq, Repr

/-- `USERS_DB`: the fixed three-user dataset from the source. -/
def USERS_DB : List User :=
  [⟨1, "Alice", "alice@example.com"⟩,
   ⟨2, "Bob", "bob@example.com"⟩,
   ⟨3, "Charlie", "charlie@example.com"⟩]

/-- A JSON value, the shape of the bodies the handlers return. -/
inductive Json where
  | str (s : String)
  | int (n : Int)
  | arr (xs : List Json)
  | obj (fields : List (String × Json))
deriving Repr

/-- The JSON object a `User` dict serialises to. -/
def User.toJson (u : User) : Json :=
  Json.obj [("id", Json.int u.id), ("name", Json.str u.name),
            ("email", Json.str u.email)]

/-- `fastapi.HTTPException(status_code=..., detail=...)`. -/
structure HTTPException where
  status_code : Nat
  detail : String
deriving DecidableEq, Repr

/-- What a handler run yields: either a raised `HTTPException` or a 200
response with a JSON body. -/
abbrev HandlerResult := Except HTTPException Json

/-- The route template label used for the get-user endpoint in the source
(the literal string with braces). -/
def userIdRoute : String := "/api/users/\x7bid\x7d"

/-- Handler `GET /`: logs at INFO and returns the status object. -/
def root (st : Obs) : HandlerResult × Obs :=
  (Except.ok (Json.obj [("status", Json.str "ok"), ("service", Json.str "sample-api")]),
   st.log .INFO "Root endpoint accessed")

/-- Handler `GET /api/users`.  `d` is the `random.uniform(0.05, 0.3)` sample,
`f` the `random.random()` fault roll, `el` the measured `time.time() - start`
elapsed time.  Sleeps `d`; if `f < 0.05` logs an error, increments the
counter with status `"500"` and raises 500 `"Database error"`; otherwise
logs at INFO, increments with status `"200"`, observes the latency histogram
and returns the users wrapped in an object. -/
def get_users (d f el : ℚ) (st : Obs) : HandlerResult × Obs :=
  let st1 := st.sleep .timeSleep d
  if f < 0.05 then
    let st2 := (st1.log .ERROR "Failed to fetch users").incReq "GET" "/api/users" "500"
    (Except.error ⟨500, "Database error"⟩, st2)
  else
    let st2 := ((st1.log .INFO ("Fetched " ++ toString USERS_DB.length ++ " users")).incReq
        "GET" "/api/users" "200").observe "GET" "/api/users" el
    (Except.ok (Json.obj [("users", Json.arr (USERS_DB.map User.toJson))]), st2)

/-- Handler `GET /api/users/\x7buser_id\x7d`.  `d` is the
`random.uniform(0.02, 0.15)` sample, `el` the measured elapsed time.
Sleeps `d`; looks the id up in `USERS_DB`; if absent logs a warning,
increments with status `"404"` and raises 404 `"User not found"`;
otherwise logs at INFO, increments with status `"200"`, observes the
latency histogram and returns the user record. -/
def get_user (user_id : Int) (d el : ℚ) (st : Obs) : HandlerResult × Obs :=
  let st1 := st.sleep .timeSleep d
  match USERS_DB.find? (fun u => u.id == user_id) with
  | none =>
    let st2 := (st1.log .WARNING ("User not found: " ++ toString user_id)).incReq
        "GET" userIdRoute "404"
    (Except.error ⟨404, "User not found"⟩, st2)
  | some u =>
    let st2 := ((st1.log .INFO ("Fetched user: " ++ toString user_id)).incReq
        "GET" userIdRoute "200").observe "GET" userIdRoute el
    (Except.ok u.toJson, st2)

/-- Handler `GET /api/slow`.  `d` is the `random.uniform(0.5, 1.5)` sample.
Logs a warning, sleeps `d`, increments the counter with status `"200"` and
returns the message body.  (No latency observation.) -/
def slow_endpoint (d : ℚ) (st : Obs) : HandlerResult × Obs :=
  let st1 := ((st.log .WARNING "Slow endpoint called").sleep .timeSleep d).incReq
      "GET" "/api/slow" "200"
  (Except.ok (Json.obj [("message", Json.str "This was slow")]), st1)

/-- Handler `GET /api/error`.  Logs an error, increments the counter with
status `"500"` and raises 500 `"Intentional error for testing"`.
No sleep is performed. -/
def error_endpoint (st : Obs) : HandlerResult × Obs :=
  (Except.error ⟨500, "Intentional error for testing"⟩,
   (st.log .ERROR "Intentional error triggered").incReq "GET" "/api/error" "500")

/-- Handler `GET /health`: returns the health body, records nothing. -/
def health (st : Obs) : HandlerResult × Obs :=
  (Except.ok (Json.obj [("status", Json.str "healthy")]), st)

/-- Handler `GET /logs`: makes four logger calls, one per severity, and
returns the message body. -/
def generate_logs (st : Obs) : HandlerResult × Obs :=
  let st1 := ((((st.log .DEBUG "Debug log message").log
      .INFO "Info log message").log
      .WARNING "Warning log message").log
      .ERROR "Error log message")
  (Except.ok (Json.obj [("message", Json.str "Logs generated")]), st1)

/-- The `status` counter-label value a handler outcome carries. -/
def statusLabel : HandlerResult → String
  | Except.ok _ => "200"
  | Except.error e => toString e.status_code

/-- In the source, `get_users` is declared `async def` (a coroutine run on
the event loop, not in a worker thread). -/
def get_users_is_async_def : Bool := true

/-- In the source, `get_user` is declared `async def`. -/
def get_user_is_async_def : Bool := true

/-- In the source, `slow_endpoint` is declared `async def`. -/
def slow_endpoint_is_async_def : Bool := true

/-! ## Theorems about the handlers -/

/-- C1: every invocation of `get_users` sleeps the sampled delay `d` from
[0.05 s, 0.3 s] and then yields exactly one of two outcomes: if the fault
roll `f` is below 0.05 it raises HTTP 500 with detail "Database error",
otherwise it returns HTTP 200 with the full fixed three-user sequence
wrapped as a `users` object. -/
theorem get_users_outcomes (d f el : ℚ) (st : Obs)
    (hd : 1/20 ≤ d ∧ d ≤ 3/10) :
    (get_users d f el st).2.sleeps = SleepCall.mk SleepKind.timeSleep d :: st.sleeps ∧
    (f < 1/20 →
      (get_users d f el st).1 = Except.error ⟨500, "Database error"⟩) ∧
    (1/20 ≤ f →
      (get_users d f el st).1 =
        Except.ok (Json.obj [("users", Json.arr (USERS_DB.map User.toJson))])) := by
  refine ⟨?_, ?_, ?_⟩
  · unfold get_users
    split <;> simp [Obs.sleep, Obs.log, Obs.incReq, Obs.observe]
  · intro hf
    have : f < (0.05 : ℚ) := by norm_num at hf ⊢; exact hf
    simp [get_users, if_pos this]
  · intro hf
    have : ¬ f < (0.05 : ℚ) := by norm_num at hf ⊢; linarith
    simp [get_users, if_neg this]

/-- C1 witness: at `d = 1/10`, `f = 0` the fault branch fires, and at
`f = 1/2` the success branch returns the full user list. -/
theorem get_users_outcomes_witness :
    (get_users (1/10) 0 0 emptyObs).1 = Except.error ⟨500, "Database error"⟩ ∧
    (get_users (1/10) (1/2) 0 emptyObs).1 =
      Except.ok (Json.obj [("users", Json.arr (USERS_DB.map User.toJson))]) :=
  ⟨(get_users_outcomes (1/10) 0 0 emptyObs (by norm_num)).2.1 (by norm_num),
   (get_users_outcomes (1/10) (1/2) 0 emptyObs (by norm_num)).2.2 (by norm_num)⟩

/-- C2: for every identifier in \x7b1,2,3\x7d, `get_user` returns HTTP 200
with the record from `USERS_DB` whose id equals the requested identifier;
in particular identifier 2 returns exactly the Bob record
("id" 2, "name" "Bob", "email" "bob@example.com"). -/
theorem get_user_valid_id (uid : Int) (d el : ℚ) (st : Obs)
    (h : uid = 1 ∨ uid = 2 ∨ uid = 3) :
    (∃ u, u ∈ USERS_DB ∧ u.id = uid ∧
      (get_user uid d el st).1 = Except.ok u.toJson) ∧
    (get_user 2 d el st).1 =
      Except.ok (Json.obj [("id", Json.int 2), ("name", Json.str "Bob"),
                           ("email", Json.str "bob@example.com")]) := by
  refine ⟨?_, rfl⟩
  rcases h with h | h | h <;> subst h
  · exact ⟨⟨1, "Alice", "alice@example.com"⟩, by decide, rfl, rfl⟩
  · exact ⟨⟨2, "Bob", "bob@example.com"⟩, by decide, rfl, rfl⟩
  · exact ⟨⟨3, "Charlie", "charlie@example.com"⟩, by decide, rfl, rfl⟩

/-- C2 witness: instantiated at identifier 2. -/
theorem get_user_valid_id_witness :
    ∃ u, u ∈ USERS_DB ∧ u.id = 2 ∧
      (get_user 2 0 0 emptyObs).1 = Except.ok u.toJson :=
  (get_user_valid_id 2 0 0 emptyObs (Or.inr (Or.inl rfl))).1

/-- C3: for every identifier not in \x7b1,2,3\x7d, `get_user` raises
HTTP 404 with detail "User not found". -/
theorem get_user_unknown_id (uid : Int) (d el : ℚ) (st : Obs)
    (h : uid ≠ 1 ∧ uid ≠ 2 ∧ uid ≠ 3) :
    (get_user uid d el st).1 = Except.error ⟨404, "User not found"⟩ := by
  obtain ⟨h1, h2, h3⟩ := h
  have hfind : USERS_DB.find? (fun u => u.id == uid) = none := by
    simp only [USERS_DB, List.find?]
    have e1 : (((1 : Int) == uid) : Bool) = false := by
      simpa using fun h => h1 h.symm
    have e2 : (((2 : Int) == uid) : Bool) = false := by
      simpa using fun h => h2 h.symm
    have e3 : (((3 : Int) == uid) : Bool) = false := by
      simpa using fun h => h3 h.symm
    simp [e1, e2, e3]
  simp [get_user, hfind]

/-- C3 witness: instantiated at identifier 99. -/
theorem get_user_unknown_id_witness :
    (get_user 99 0 0 emptyObs).1 = Except.error ⟨404, "User not found"⟩ :=
  get_user_unknown_id 99 0 0 emptyObs (by norm_num)

/-- C4: every invocation of the error endpoint raises HTTP 500 with detail
"Intentional error for testing" (so it never returns a success response)
and performs no sleep: the sleep log is left unchanged. -/
theorem error_endpoint_always_500 (st : Obs) :
    (error_endpoint st).1 = Except.error ⟨500, "Intentional error for testing"⟩ ∧
    (error_endpoint st).2.sleeps = st.sleeps := by
  exact ⟨rfl, rfl⟩

/-- C5: every invocation of the slow endpoint sleeps the sampled delay `d`
from [0.5 s, 1.5 s] (so the delay is ≥ 0.5 s and ≤ 1.5 s) and always
succeeds with HTTP 200 and body ("message": "This was slow"). -/
theorem slow_endpoint_spec (d : ℚ) (st : Obs)
    (hd : 1/2 ≤ d ∧ d ≤ 3/2) :
    (slow_endpoint d st).1 =
      Except.ok (Json.obj [("message", Json.str "This was slow")]) ∧
    (slow_endpoint d st).2.sleeps = SleepCall.mk SleepKind.timeSleep d :: st.sleeps ∧
    1/2 ≤ d ∧ d ≤ 3/2 := by
  exact ⟨rfl, rfl, hd⟩

/-- C5 witness: instantiated at `d = 1`. -/
theorem slow_endpoint_spec_witness :
    (slow_endpoint 1 emptyObs).1 =
      Except.ok (Json.obj [("message", Json.str "This was slow")]) ∧
    (slow_endpoint 1 emptyObs).2.sleeps = [SleepCall.mk SleepKind.timeSleep 1] :=
  ⟨(slow_endpoint_spec 1 emptyObs (by norm_num)).1,
   (slow_endpoint_spec 1 emptyObs (by norm_num)).2.1⟩

/-- C6 counterexample: the claim says every handler invocation records its
outcome as an `http_requests_total` increment, but a call to the health
handler (and to the root handler) on the fresh telemetry state leaves the
counter untouched: no increment is recorded at all. -/
theorem health_and_root_record_no_increment :
    (health emptyObs).2.requests = ([] : List ReqInc) ∧
    (root emptyObs).2.requests = ([] : List ReqInc) :=
  ⟨rfl, rfl⟩

/-- C6 amended: only the four fault/latency endpoints record outcomes in
`http_requests_total` — `get_users`, `get_user`, the slow endpoint and the
error endpoint each push exactly one increment whose status label equals
the resulting status code; the root, health and log-generation handlers
leave the counter unchanged. -/
theorem requests_counter_coverage (d f el : ℚ) (uid : Int) (st : Obs) :
    (get_users d f el st).2.requests =
      ReqInc.mk "GET" "/api/users" (statusLabel (get_users d f el st).1) :: st.requests ∧
    (get_user uid d el st).2.requests =
      ReqInc.mk "GET" userIdRoute (statusLabel (get_user uid d el st).1) :: st.requests ∧
    (slow_endpoint d st).2.requests = ReqInc.mk "GET" "/api/slow" "200" :: st.requests ∧
    (error_endpoint st).2.requests = ReqInc.mk "GET" "/api/error" "500" :: st.requests ∧
    (root st).2.requests = st.requests ∧
    (health st).2.requests = st.requests ∧
    (generate_logs st).2.requests = st.requests := by
  refine ⟨?_, ?_, rfl, rfl, rfl, rfl, rfl⟩
  · unfold get_users
    split <;> simp [Obs.sleep, Obs.log, Obs.incReq, Obs.observe, statusLabel] <;> rfl
  · unfold get_user
    split <;> simp [Obs.sleep, Obs.log, Obs.incReq, Obs.observe, statusLabel] <;> rfl

/-- C7: each of the three error paths logs at error or warning severity and
increments `http_requests_total` with the resulting status code alongside
raising the exception: the fault branch of `get_users` (fault roll below
0.05) logs at ERROR and counts status "500"; the unknown-id branch of
`get_user` logs at WARNING and counts status "404"; the error endpoint
logs at ERROR and counts status "500". -/
theorem errors_logged_and_counted (d f el : ℚ) (uid : Int) (st : Obs)
    (hf : f < 1/20) (hu : uid ≠ 1 ∧ uid ≠ 2 ∧ uid ≠ 3) :
    ((get_users d f el st).1 = Except.error ⟨500, "Database error"⟩ ∧
     (get_users d f el st).2.requests.head? = some ⟨"GET", "/api/users", "500"⟩ ∧
     (get_users d f el st).2.logCalls.head? =
       some ⟨Severity.ERROR, "Failed to fetch users"⟩) ∧
    ((get_user uid d el st).1 = Except.error ⟨404, "User not found"⟩ ∧
     (get_user uid d el st).2.requests.head? = some ⟨"GET", userIdRoute, "404"⟩ ∧
     (get_user uid d el st).2.logCalls.head? =
       some ⟨Severity.WARNING, "User not found: " ++ toString uid⟩) ∧
    ((error_endpoint st).1 = Except.error ⟨500, "Intentional error for testing"⟩ ∧
     (error_endpoint st).2.requests.head? = some ⟨"GET", "/api/error", "500"⟩ ∧
     (error_endpoint st).2.logCalls.head? =
       some ⟨Severity.ERROR, "Intentional error triggered"⟩) := by
  obtain ⟨h1, h2, h3⟩ := hu
  have hf' : f < (0.05 : ℚ) := by norm_num at hf ⊢; exact hf
  have hfind : USERS_DB.find? (fun u => u.id == uid) = none := by
    simp only [USERS_DB, List.find?]
    have e1 : (((1 : Int) == uid) : Bool) = false := by
      simpa using fun h => h1 h.symm
    have e2 : (((2 : Int) == uid) : Bool) = false := by
      simpa using fun h => h2 h.symm
    have e3 : (((3 : Int) == uid) : Bool) = false := by
      simpa using fun h => h3 h.symm
    simp [e1, e2, e3]
  refine ⟨?_, ?_, rfl, rfl, rfl⟩
  · simp [get_users, if_pos hf', Obs.sleep, Obs.log, Obs.incReq]
  · simp [get_user, hfind, Obs.sleep, Obs.log, Obs.incReq]

/-- C7 witness: instantiated at fault roll 0 and identifier 99. -/
theorem errors_logged_and_counted_witness :
    (get_users (1/10) 0 0 emptyObs).1 = Except.error ⟨500, "Database error"⟩ ∧
    (get_users (1/10) 0 0 emptyObs).2.requests.head? =
      some ⟨"GET", "/api/users", "500"⟩ ∧
    (get_user 99 0 0 emptyObs).1 = Except.error ⟨404, "User not found"⟩ ∧
    (get_user 99 0 0 emptyObs).2.requests.head? =
      some ⟨"GET", userIdRoute, "404"⟩ := by
  have h := errors_logged_and_counted (1/10) 0 0 99 emptyObs (by norm_num) (by norm_num)
  exact ⟨h.1.1, h.1.2.1, h.2.1.1, h.2.1.2.1⟩

/-- C8 counterexample: the claim says `/logs` emits four log lines, one at
each severity including debug, but with the configured INFO level the debug
call is filtered out: the emitted lines of a call on the fresh state are
exactly the error, warning and info lines — three lines, none at DEBUG. -/
theorem generate_logs_debug_suppressed :
    emittedLogs (generate_logs emptyObs).2.logCalls =
      [⟨Severity.ERROR, "Error log message"⟩,
       ⟨Severity.WARNING, "Warning log message"⟩,
       ⟨Severity.INFO, "Info log message"⟩] := by
  decide

/-- C8 amended: every invocation of `/logs` returns HTTP 200 with body
("message": "Logs generated") and makes four logger calls, one at each of
debug, info, warning and error severity; because `logging.basicConfig` sets
the level to INFO, only the info, warning and error lines are emitted —
three log lines, the debug call being suppressed. -/
theorem generate_logs_behavior (st : Obs) :
    (generate_logs st).1 =
      Except.ok (Json.obj [("message", Json.str "Logs generated")]) ∧
    (generate_logs st).2.logCalls =
      ⟨Severity.ERROR, "Error log message"⟩ ::
      ⟨Severity.WARNING, "Warning log message"⟩ ::
      ⟨Severity.INFO, "Info log message"⟩ ::
      ⟨Severity.DEBUG, "Debug log message"⟩ :: st.logCalls ∧
    emittedLogs (generate_logs emptyObs).2.logCalls =
      [⟨Severity.ERROR, "Error log message"⟩,
       ⟨Severity.WARNING, "Warning log message"⟩,
       ⟨Severity.INFO, "Info log message"⟩] := by
  exact ⟨rfl, rfl, by decide⟩

/-- C9: the three delaying handlers are `async def` coroutines, yet every
delay they perform is a `time.sleep` — the blocking primitive — and a
blocking sleep is not non-blocking with respect to other in-flight
requests: while the coroutine sleeps, the single-threaded event loop can
service no other request. -/
theorem handler_delays_are_blocking (d f el : ℚ) (uid : Int) (st : Obs) :
    get_users_is_async_def = true ∧
    get_user_is_async_def = true ∧
    slow_endpoint_is_async_def = true ∧
    (get_users d f el st).2.sleeps.head? = some ⟨SleepKind.timeSleep, d⟩ ∧
    (get_user uid d el st).2.sleeps.head? = some ⟨SleepKind.timeSleep, d⟩ ∧
    (slow_endpoint d st).2.sleeps.head? = some ⟨SleepKind.timeSleep, d⟩ ∧
    SleepCall.nonBlocking ⟨SleepKind.timeSleep, d⟩ = false := by
  refine ⟨rfl, rfl, rfl, ?_, ?_, rfl, rfl⟩
  · unfold get_users
    split <;> simp [Obs.sleep, Obs.log, Obs.incReq, Obs.observe]
  · unfold get_user
    split <;> simp [Obs.sleep, Obs.log, Obs.incReq, Obs.observe]

/-- C10: the `http_request_duration_seconds` histogram is observed exactly
on the success paths of `get_users` and `get_user`; the fault branch of
`get_users`, the unknown-id branch of `get_user`, the slow endpoint, the
error endpoint, and the root, health and log-generation handlers all leave
the histogram state unchanged. -/
theorem latency_observed_only_on_success (d f el : ℚ) (uid : Int) (st : Obs) :
    (f < 1/20 → (get_users d f el st).2.latency = st.latency) ∧
    (1/20 ≤ f → (get_users d f el st).2.latency =
      LatObs.mk "GET" "/api/users" el :: st.latency) ∧
    ((uid ≠ 1 ∧ uid ≠ 2 ∧ uid ≠ 3) →
      (get_user uid d el st).2.latency = st.latency) ∧
    ((uid = 1 ∨ uid = 2 ∨ uid = 3) →
      (get_user uid d el st).2.latency =
        LatObs.mk "GET" userIdRoute el :: st.latency) ∧
    (slow_endpoint d st).2.latency = st.latency ∧
    (error_endpoint st).2.latency = st.latency ∧
    (root st).2.latency = st.latency ∧
    (health st).2.latency = st.latency ∧
    (generate_logs st).2.latency = st.latency := by
  refine ⟨?_, ?_, ?_, ?_, rfl, rfl, rfl, rfl, rfl⟩
  · intro hf
    have hf' : f < (0.05 : ℚ) := by norm_num at hf ⊢; exact hf
    simp [get_users, if_pos hf', Obs.sleep, Obs.log, Obs.incReq]
  · intro hf
    have hf' : ¬ f < (0.05 : ℚ) := by norm_num at hf ⊢; linarith
    simp [get_users, if_neg hf', Obs.sleep, Obs.log, Obs.incReq, Obs.observe]
  · intro hu
    obtain ⟨h1, h2, h3⟩ := hu
    have hfind : USERS_DB.find? (fun u => u.id == uid) = none := by
      simp only [USERS_DB, List.find?]
      have e1 : (((1 : Int) == uid) : Bool) = false := by
        simpa using fun h => h1 h.symm
      have e2 : (((2 : Int) == uid) : Bool) = false := by
        simpa using fun h => h2 h.symm
      have e3 : (((3 : Int) == uid) : Bool) = false := by
        simpa using fun h => h3 h.symm
      simp [e1, e2, e3]
    simp [get_user, hfind, Obs.sleep, Obs.log, Obs.incReq]
  · intro hu
    rcases hu with h | h | h <;> subst h <;> rfl

/-- C10 witness: the fault branch at roll 0 and the unknown id 99 leave the
histogram empty; the success branches at roll 1/2 and id 2 each record one
observation. -/
theorem latency_observed_only_on_success_witness :
    (get_users (1/10) 0 0 emptyObs).2.latency = [] ∧
    (get_users (1/10) (1/2) 0 emptyObs).2.latency =
      [LatObs.mk "GET" "/api/users" 0] ∧
    (get_user 99 0 0 emptyObs).2.latency = [] ∧
    (get_user 2 0 0 emptyObs).2.latency = [LatObs.mk "GET" userIdRoute 0] := by
  have h1 := latency_observed_only_on_success (1/10) 0 0 99 emptyObs
  have h2 := latency_observed_only_on_success (1/10) (1/2) 0 2 emptyObs
  exact ⟨h1.1 (by norm_num), h2.2.1 (by norm_num),
         h1.2.2.1 (by norm_num), h2.2.2.2.1 (by norm_num)⟩
